import Mathlib

/-!
Verification development for the Docker runtime adapter of the minikube
container-runtime layer (pkg/minikube/cruntime/docker.go).

The Go code is shallowly embedded: Go strings are Lean Strings (with their
underlying character lists), external collaborators (the command execution
backend, the service lifecycle manager, PATH lookup, the CRI backend, the
JSON decoder and human-size parser of the docker CLI output, and the
preload download helpers) are oracles collected in a Host / PreloadDeps
record, and every adapter operation is a function returning the ordered
trace of external effects it issues together with its result.
-/

set_option maxHeartbeats 1000000

deriving instance DecidableEq for Except

/-- Whether the first character list is a prefix of the second. -/
def isPrefixChars : List Char → List Char → Bool
  | [], _ => true
  | _ :: _, [] => false
  | p :: ps, s :: ss => p = s && isPrefixChars ps ss

/-- Embedding of Go strings.TrimPrefix: drop the prefix when present,
otherwise return the string unchanged. -/
def trimPrefixStr (s pre : String) : String :=
  if isPrefixChars pre.data s.data then String.mk (s.data.drop pre.data.length) else s

/-- Split a character list at the first slash, returning the parts before
and after it, or none when no slash occurs.  This is the computational core
of Go strings.SplitN(s, "/", 2). -/
def splitSlash : List Char → Option (List Char × List Char)
  | [] => none
  | c :: cs =>
    if c = '/' then some ([], cs)
    else
      match splitSlash cs with
      | none => none
      | some (a, b) => some (c :: a, b)

/-- Embedding of Go strings.SplitN(s, "/", 2): one or two pieces. -/
def goSplitN2 (s : String) : List String :=
  match splitSlash s.data with
  | none => [s]
  | some (a, b) => [String.mk a, String.mk b]

/-- Embedding of Go strings.Contains(s, c) for a one-character pattern. -/
def goContains (s : String) (c : Char) : Bool :=
  s.data.contains c

/-- Split a character list on a separator character, keeping empty pieces
(the computational core of Go strings.Split for a one-character separator). -/
def splitOnChar (c : Char) : List Char → List (List Char)
  | [] => [[]]
  | x :: xs =>
    match splitOnChar c xs with
    | [] => [[]]
    | r :: rs => if x = c then [] :: r :: rs else (x :: r) :: rs

/-- Embedding of Go strings.Split(s, "\n"). -/
def goSplitLines (s : String) : List String :=
  (splitOnChar (Char.ofNat 10) s.data).map String.mk

/-- An external command: program plus arguments (Go exec.Command). -/
structure Cmd where
  prog : String
  args : List String
deriving DecidableEq

/-- Captured output of a successfully executed command. -/
structure CmdResult where
  stdout : String
deriving DecidableEq

/-- Actions of the service lifecycle manager (sysinit.Manager). -/
inductive SvcAction where
  | enable
  | disable
  | start
  | stop
  | forceStop
  | restart
  | mask
  | unmask
deriving DecidableEq

/-- One observable external effect issued by an adapter operation. -/
inductive Eff where
  /-- Runner.RunCmd with the given command. -/
  | run (c : Cmd)
  /-- Runner.Copy of a file-backed asset to the given target path. -/
  | copyFile (dst : String)
  /-- Runner.Copy of an in-memory asset (target path and content). -/
  | copyMem (dst content : String)
  /-- Runner.Remove of the asset at the given target path. -/
  | removeA (dst : String)
  /-- A call into the service lifecycle manager. -/
  | svc (a : SvcAction) (s : String)
  /-- A delegation to the CRI backend (operation name and arguments). -/
  | cri (op : String) (args : List String)
  /-- An exec.LookPath binary resolution. -/
  | look (bin : String)
  /-- A docker reference-store bookkeeping call (save or update). -/
  | refStore (op : String)
deriving DecidableEq

/-- Whether an effect is a delegation to the CRI backend. -/
def Eff.isCri : Eff → Bool
  | .cri _ _ => true
  | _ => false

/-- Whether an effect is a Runner.Copy (a filesystem write on the host). -/
def Eff.isCopy : Eff → Bool
  | .copyFile _ => true
  | .copyMem _ _ => true
  | _ => false

/-- Whether an effect is a service restart of the given service. -/
def Eff.isRestartOf (s : String) : Eff → Bool
  | .svc a s2 => a = SvcAction.restart && s2 = s
  | _ => false

/-- Errors surfaced by adapter operations. -/
inductive Err where
  /-- A Runner command failed (wrapped with the attempted action). -/
  | cmdFail (c : Cmd) (msg : String)
  /-- A Runner.Copy failed. -/
  | copyFail (dst : String) (msg : String)
  /-- A service lifecycle action failed. -/
  | svcFail (a : SvcAction) (s : String)
  /-- An exec.LookPath resolution failed. -/
  | lookFail (bin : String)
  /-- ErrISOFeature: the host is missing a required feature. -/
  | isoFeature (missing : String)
  /-- A CRI backend delegation failed. -/
  | criFail (op : String)
  /-- Any other wrapped error. -/
  | wrap (msg : String)
deriving DecidableEq

/-- Result of an adapter operation: the ordered trace of external effects
it issued, together with its returned value or error. -/
def Tr (α : Type) : Type := List Eff × Except Err α

instance trDecEq {α : Type} [DecidableEq α] : DecidableEq (Tr α) :=
  inferInstanceAs (DecidableEq (List Eff × Except Err α))

/-- Sequencing of traced operations: on error the remaining steps do not
run and contribute no effects. -/
def Tr.bind {α β : Type} (x : Tr α) (f : α → Tr β) : Tr β :=
  match x.2 with
  | .error e => (x.1, .error e)
  | .ok a => (x.1 ++ (f a).1, (f a).2)

instance trMonad : Monad Tr where
  pure a := ([], .ok a)
  bind := Tr.bind

@[simp]
theorem tr_pure_def {α : Type} (a : α) : (pure a : Tr α) = ([], .ok a) := rfl

@[simp]
theorem tr_bind_ok {α β : Type} (t : List Eff) (a : α) (f : α → Tr β) :
    Tr.bind (t, .ok a) f = (t ++ (f a).1, (f a).2) := rfl

@[simp]
theorem tr_bind_err {α β : Type} (t : List Eff) (e : Err) (f : α → Tr β) :
    Tr.bind (t, .error e) f = (t, .error e) := rfl

@[simp]
theorem tr_bind_eq_bind {α β : Type} (x : Tr α) (f : α → Tr β) :
    (bind x f : Tr β) = Tr.bind x f := rfl

/-- One row of docker images JSON output (the dockerImage struct local to
ListImages). -/
structure DockerImageRow where
  ID : String
  Repository : String
  Tag : String
  Size : String
deriving DecidableEq

/-- The external world a Docker adapter instance acts on: the command
execution backend, asset copy and removal, the service lifecycle manager,
PATH binary resolution, the CRI backend (success oracle and container
listing result), and the external JSON / human-size decoders used when
parsing docker CLI output. -/
structure Host where
  run : Cmd → Option CmdResult
  copyFileOk : String → Bool
  copyMemOk : String → Bool
  removeOk : String → Bool
  svcOk : SvcAction → String → Bool
  path : String → Bool
  criOk : String → List String → Bool
  criContainers : String → List String
  jsonImage : String → Option DockerImageRow
  fromHumanSize : String → Option Int

/-- Semantic version with the fields the adapter compares (semver.Version
restricted to its numeric triple; the adapter only compares against the
plain release 1.24.0). -/
structure SemVer where
  major : Nat
  minor : Nat
  patch : Nat
deriving DecidableEq

/-- Embedding of semver GTE: lexicographic comparison of the triple. -/
def SemVer.gte (v w : SemVer) : Bool :=
  if v.major = w.major then
    if v.minor = w.minor then decide (w.patch ≤ v.patch)
    else decide (w.minor < v.minor)
  else decide (w.major < v.major)

/-- Docker contains Docker runtime state (the configuration fields; the
Runner and Init collaborators are the Host oracle passed to operations). -/
structure Docker where
  Socket : String
  ImageRepository : String
  KubernetesVersion : SemVer
  UseCRI : Bool
  CRIService : String
deriving DecidableEq

/-- KubernetesContainerPrefix is the prefix of each Kubernetes container. -/
def KubernetesContainerPrefix : String := "k8s_"

/-- Path of the internal dockershim CRI socket. -/
def InternalDockerCRISocket : String := "/var/run/dockershim.sock"

/-- Path of the external cri-dockerd CRI socket. -/
def ExternalDockerCRISocket : String := "/var/run/cri-dockerd.sock"

/-- CNI binary directory constant. -/
def CNIBinDir : String := "/opt/cni/bin"

/-- CNI configuration directory constant. -/
def CNIConfDir : String := "/etc/cni/net.d"

/-- CNI cache directory constant. -/
def CNICacheDir : String := "/var/lib/cni/cache"

/-- Modelled from the spec: the configuration directory of the CNI package
(cni.ConfDir), whose defining package is not under src/; the adapter file
itself fixes the conventional value "/etc/cni/net.d" for it in its local
CNIConfDir constant. -/
def cniConfDir : String := "/etc/cni/net.d"

/-- State filter for container listing. -/
inductive ContainerState where
  | all
  | running
  | paused
deriving DecidableEq

/-- Options for ListContainers. -/
structure ListContainersOptions where
  State : ContainerState
  Name : String
  Namespaces : List String
deriving DecidableEq

/-- An image record as returned by ListImages. -/
structure ListImage where
  ID : String
  RepoDigests : List String
  RepoTags : List String
  Size : String
deriving DecidableEq

/-- Shared tail of addDockerIO (the else branch of the Go function):
prepend the default registry, inserting the implicit library user segment
when the name has no user/organization segment. -/
def addDockerIODefaultReg (name : String) : String :=
  match goSplitN2 name with
  | [usr, img] => "docker.io" ++ "/" ++ usr ++ "/" ++ img
  | _ => "docker.io" ++ "/" ++ "library" ++ "/" ++ name

/-- Embedding of addDockerIO: if the name splits at a slash and the first
segment contains a dot, keep the name registry-qualified as-is; otherwise
prepend the default registry (and the library segment when needed). -/
def addDockerIO (name : String) : String :=
  match goSplitN2 name with
  | [reg, img] =>
    if goContains reg '.' then reg ++ "/" ++ img
    else addDockerIODefaultReg name
  | _ => addDockerIODefaultReg name

/-- Modelled from the spec: the image-name normalization helper
( image.TrimDockerIO ) is not under src/; per the spec it strips the
implicit default-registry prefix, that is a leading "docker.io/" and a
following implicit "library/" user segment, so that
"docker.io/library/A" and "A" normalize identically. -/
def TrimDockerIO (name : String) : String :=
  trimPrefixStr (trimPrefixStr name "docker.io/") "library/"

example : addDockerIO "nginx" = "docker.io/library/nginx" := by decide
example : addDockerIO "myuser/app" = "docker.io/myuser/app" := by decide
example : addDockerIO "myregistry.io/app" = "myregistry.io/app" := by decide
example : addDockerIO "my.image" = "docker.io/library/my.image" := by decide
example : TrimDockerIO "docker.io/library/A" = "A" := by decide

/-- Run a command through the execution backend, recording the effect; a
failure is wrapped with the attempted action. -/
def runCmdTr (h : Host) (c : Cmd) (msg : String) : Tr CmdResult :=
  ([.run c], match h.run c with
    | some rr => .ok rr
    | none => .error (.cmdFail c msg))

/-- Resolve a binary on PATH (exec.LookPath). -/
def lookPathTr (h : Host) (bin : String) : Tr Unit :=
  ([.look bin], if h.path bin then .ok () else .error (.lookFail bin))

/-- A fatal service lifecycle manager call: its failure propagates. -/
def initCall (h : Host) (a : SvcAction) (s : String) : Tr Unit :=
  ([.svc a s], if h.svcOk a s then .ok () else .error (.svcFail a s))

/-- A best-effort service lifecycle manager call: its failure is only
logged, never propagated. -/
def initCallLogged (h : Host) (a : SvcAction) (s : String) : Tr Unit :=
  ([.svc a s], .ok ())

/-- Copy a file-backed asset onto the host (Runner.Copy); fatal. -/
def copyFileTr (h : Host) (dst msg : String) : Tr Unit :=
  ([.copyFile dst], if h.copyFileOk dst then .ok () else .error (.copyFail dst msg))

/-- Copy an in-memory asset onto the host (Runner.Copy); fatal. -/
def copyMemTr (h : Host) (dst content msg : String) : Tr Unit :=
  ([.copyMem dst content], if h.copyMemOk dst then .ok () else .error (.copyFail dst msg))

/-- Remove an asset from the host (Runner.Remove); failure logged only. -/
def removeTr (h : Host) (dst : String) : Tr Unit :=
  ([.removeA dst], .ok ())

/-- Modelled from the spec: the docker reference-store (docker.NewStorage)
Save call is defined outside src/; its failures are logged, never
propagated, so it contributes one bookkeeping effect and always succeeds. -/
def refStoreSaveTr : Tr Unit :=
  ([.refStore "save"], .ok ())

/-- Modelled from the spec: the docker reference-store Update call, same
best-effort treatment as the Save call. -/
def refStoreUpdateTr : Tr Unit :=
  ([.refStore "update"], .ok ())

/-- Modelled from the spec: the CRI backend image pull (pullCRIImage is
not under src/); it issues one CRI backend command for the named image. -/
def pullCRIImage (h : Host) (name : String) : Tr Unit :=
  ([.cri "pullImage" [name]],
   if h.criOk "pullImage" [name] then .ok () else .error (.criFail "pullImage"))

/-- Modelled from the spec: the CRI backend image removal (removeCRIImage
is not under src/); it issues one CRI backend command for the named image. -/
def removeCRIImage (h : Host) (name : String) : Tr Unit :=
  ([.cri "removeImage" [name]],
   if h.criOk "removeImage" [name] then .ok () else .error (.criFail "removeImage"))

/-- Modelled from the spec: the CRI backend container listing
(listCRIContainers is not under src/); it issues one CRI backend command
and returns the container list of the backend. -/
def listCRIContainers (h : Host) (root : String) (o : ListContainersOptions) : Tr (List String) :=
  ([.cri "listContainers" (root :: o.Name :: o.Namespaces)],
   if h.criOk "listContainers" (root :: o.Name :: o.Namespaces)
   then .ok (h.criContainers o.Name) else .error (.criFail "listContainers"))

/-- Modelled from the spec: the CRI backend bulk kill (killCRIContainers
is not under src/); per the spec, bulk operations taking an empty ID list
are no-ops, and a non-empty list is covered by one backend command. -/
def killCRIContainers (h : Host) (ids : List String) : Tr Unit :=
  if ids.isEmpty then ([], .ok ())
  else ([.cri "killContainers" ids],
        if h.criOk "killContainers" ids then .ok () else .error (.criFail "killContainers"))

/-- Modelled from the spec: the CRI backend bulk stop, same contract as
the bulk kill. -/
def stopCRIContainers (h : Host) (ids : List String) : Tr Unit :=
  if ids.isEmpty then ([], .ok ())
  else ([.cri "stopContainers" ids],
        if h.criOk "stopContainers" ids then .ok () else .error (.criFail "stopContainers"))

/-- Modelled from the spec: the CRI backend bulk pause, same contract as
the bulk kill. -/
def pauseCRIContainers (h : Host) (root : String) (ids : List String) : Tr Unit :=
  if ids.isEmpty then ([], .ok ())
  else ([.cri "pauseContainers" (root :: ids)],
        if h.criOk "pauseContainers" (root :: ids) then .ok () else .error (.criFail "pauseContainers"))

/-- Modelled from the spec: the CRI backend bulk unpause, same contract as
the bulk kill. -/
def unpauseCRIContainers (h : Host) (root : String) (ids : List String) : Tr Unit :=
  if ids.isEmpty then ([], .ok ())
  else ([.cri "unpauseContainers" (root :: ids)],
        if h.criOk "unpauseContainers" (root :: ids) then .ok () else .error (.criFail "unpauseContainers"))

/-- Modelled from the spec: the CRI backend log-command construction
(criContainerLogCmd is not under src/); the spec fixes only that it is the
CRI-side equivalent, so the returned command string is abstracted. -/
def criContainerLogCmd (h : Host) (id : String) (l : Int) (follow : Bool) : List Eff × String :=
  ([.cri "containerLogCmd" [id, toString l, toString follow]],
   "cri container log command for " ++ id)

/-- Version retrieves the current version of this runtime. -/
def Docker.Version (_r : Docker) (h : Host) : Tr String := do
  let rr ← runCmdTr h ⟨"docker", ["version", "--format", "\x7b\x7b.Server.Version\x7d\x7d"]⟩ ""
  pure ((goSplitLines rr.stdout).headD "")

/-- SocketPath returns the path to the socket file for Docker. -/
def Docker.SocketPath (r : Docker) : String :=
  if r.Socket ≠ "" then r.Socket else InternalDockerCRISocket

/-- Available returns an error if it is not possible to use this runtime
on a host: when the Kubernetes version is at least 1.24 both cri-dockerd
and dockerd must resolve, and the docker binary must always resolve. -/
def Docker.Available (r : Docker) (h : Host) : Tr Unit := do
  if SemVer.gte r.KubernetesVersion ⟨1, 24, 0⟩ then
    lookPathTr h "cri-dockerd"
    lookPathTr h "dockerd"
  lookPathTr h "docker"

/-- Restart restarts Docker on a host. -/
def Docker.Restart (_r : Docker) (h : Host) : Tr Unit :=
  initCall h .restart "docker"

/-- Disable idempotently disables Docker on a host: stop and disable the
CRI service when configured (both fatal), force-stop docker.socket
(logged only), force-stop docker.service (fatal), disable docker.socket
(logged only), then mask docker.service. -/
def Docker.Disable (r : Docker) (h : Host) : Tr Unit := do
  if r.CRIService ≠ "" then
    initCall h .stop r.CRIService
    initCall h .disable r.CRIService
  initCallLogged h .forceStop "docker.socket"
  initCall h .forceStop "docker.service"
  initCallLogged h .disable "docker.socket"
  initCall h .mask "docker.service"

/-- Decode the lines of docker images JSON output into image records;
empty lines are skipped and any decode or size-conversion failure fails
the whole call. -/
def decodeImageRows (h : Host) : List String → Except Err (List ListImage)
  | [] => .ok []
  | img :: rest =>
    if img = "" then decodeImageRows h rest
    else
      match h.jsonImage img with
      | none => .error (.wrap "Image convert problem")
      | some row =>
        match h.fromHumanSize row.Size with
        | none => .error (.wrap "Image size convert problem")
        | some size =>
          match decodeImageRows h rest with
          | .error e => .error e
          | .ok out =>
            .ok (⟨trimPrefixStr row.ID "sha256:", [],
                  [ addDockerIO (row.Repository ++ ":" ++ row.Tag)],
                  toString size⟩ :: out)

/-- ListImages returns a list of images managed by this container runtime;
it always queries the native docker CLI. -/
def Docker.ListImages (_r : Docker) (h : Host) : Tr (List ListImage) := do
  let rr ← runCmdTr h ⟨"docker", ["images", "--no-trunc", "--format", "\x7b\x7bjson .\x7d\x7d"]⟩ "docker images"
  ([], decodeImageRows h (goSplitLines rr.stdout))

/-- LoadImage loads an image into this runtime through a bash pipeline
into the native docker CLI. -/
def Docker.LoadImage (_r : Docker) (h : Host) (p : String) : Tr Unit := do
  let _ ← runCmdTr h ⟨"/bin/bash", ["-c", "sudo cat " ++ p ++ " | docker load"]⟩ "loadimage docker"
  pure ()

/-- PullImage pulls an image, delegating to the CRI backend when UseCRI
is set. -/
def Docker.PullImage (r : Docker) (h : Host) (name : String) : Tr Unit :=
  if r.UseCRI then pullCRIImage h name
  else do
    let _ ← runCmdTr h ⟨"docker", ["pull", name]⟩ "pull image docker"
    pure ()

/-- SaveImage saves an image from this runtime through a bash pipeline
out of the native docker CLI. -/
def Docker.SaveImage (_r : Docker) (h : Host) (name p : String) : Tr Unit := do
  let _ ← runCmdTr h ⟨"/bin/bash", ["-c", "docker save \x27" ++ name ++ "\x27 | sudo tee " ++ p ++ " >/dev/null"]⟩ "saveimage docker"
  pure ()

/-- RemoveImage removes an image, delegating to the CRI backend when
UseCRI is set. -/
def Docker.RemoveImage (r : Docker) (h : Host) (name : String) : Tr Unit :=
  if r.UseCRI then removeCRIImage h name
  else do
    let _ ← runCmdTr h ⟨"docker", ["rmi", name]⟩ "remove image docker"
    pure ()

/-- TagImage tags an image in this runtime via the native docker CLI. -/
def Docker.TagImage (_r : Docker) (h : Host) (source target : String) : Tr Unit := do
  let _ ← runCmdTr h ⟨"docker", ["tag", source, target]⟩ "tag image docker"
  pure ()

/-- BuildImage builds an image via the native docker CLI, optionally
pushing the tag afterwards. -/
def Docker.BuildImage (_r : Docker) (h : Host) (src file tag : String) (push : Bool)
    (_env opts : List String) : Tr Unit := do
  let args := ["build"]
    ++ (if file ≠ "" then ["-f", file] else [])
    ++ (if tag ≠ "" then ["-t", tag] else [])
    ++ [src]
    ++ opts.map (fun opt => "--" ++ opt)
  let _ ← runCmdTr h ⟨"docker", args⟩ "buildimage docker"
  if tag != "" && push then
    let _ ← runCmdTr h ⟨"docker", ["push", tag]⟩ "pushimage docker"
    pure ()

/-- PushImage pushes an image via the native docker CLI. -/
def Docker.PushImage (_r : Docker) (h : Host) (name : String) : Tr Unit := do
  let _ ← runCmdTr h ⟨"docker", ["push", name]⟩ "push image docker"
  pure ()

/-- CGroupDriver returns the cgroup driver reported by the native docker
CLI. -/
def Docker.CGroupDriver (_r : Docker) (h : Host) : Tr String := do
  let rr ← runCmdTr h ⟨"docker", ["info", "--format", "\x7b\x7b.CgroupDriver\x7d\x7d"]⟩ ""
  pure ((goSplitLines rr.stdout).headD "")

/-- KubeletOptions returns kubelet options for a runtime. -/
def Docker.KubeletOptions (r : Docker) : List (String × String) :=
  if r.UseCRI then
    [("container-runtime", "remote"),
     ("container-runtime-endpoint", r.SocketPath),
     ("image-service-endpoint", r.SocketPath),
     ("runtime-request-timeout", "15m")]
  else
    [("container-runtime", "docker")]

/-- ListContainers returns a list of containers, delegating to the CRI
backend when UseCRI is set. -/
def Docker.ListContainers (r : Docker) (h : Host) (o : ListContainersOptions) : Tr (List String) :=
  if r.UseCRI then listCRIContainers h "" o
  else
    let stateArgs : List String :=
      match o.State with
      | .all => ["-a"]
      | .running => ["--filter", "status=running"]
      | .paused => ["--filter", "status=paused"]
    let nameFilterBase := KubernetesContainerPrefix ++ o.Name
    let nameFilter :=
      if 0 < o.Namespaces.length then
        nameFilterBase ++ ".*_(" ++ String.intercalate "|" o.Namespaces ++ ")_"
      else nameFilterBase
    let args := ["ps"] ++ stateArgs
      ++ ["--filter=name=" ++ nameFilter, "--format=\x7b\x7b.ID\x7d\x7d"]
    do
      let rr ← runCmdTr h ⟨"docker", args⟩ "docker"
      pure ((goSplitLines rr.stdout).filter (fun line => line != ""))

/-- KillContainers forcibly removes running containers by ID, delegating
to the CRI backend when UseCRI is set; an empty list is a no-op. -/
def Docker.KillContainers (r : Docker) (h : Host) (ids : List String) : Tr Unit :=
  if r.UseCRI then killCRIContainers h ids
  else if ids.isEmpty then ([], .ok ())
  else do
    let _ ← runCmdTr h ⟨"docker", ["rm", "-f"] ++ ids⟩ "killing containers docker"
    pure ()

/-- StopContainers stops running containers by ID, delegating to the CRI
backend when UseCRI is set; an empty list is a no-op. -/
def Docker.StopContainers (r : Docker) (h : Host) (ids : List String) : Tr Unit :=
  if r.UseCRI then stopCRIContainers h ids
  else if ids.isEmpty then ([], .ok ())
  else do
    let _ ← runCmdTr h ⟨"docker", ["stop"] ++ ids⟩ "docker"
    pure ()

/-- PauseContainers pauses running containers by ID, delegating to the CRI
backend when UseCRI is set; an empty list is a no-op. -/
def Docker.PauseContainers (r : Docker) (h : Host) (ids : List String) : Tr Unit :=
  if r.UseCRI then pauseCRIContainers h "" ids
  else if ids.isEmpty then ([], .ok ())
  else do
    let _ ← runCmdTr h ⟨"docker", ["pause"] ++ ids⟩ "docker"
    pure ()

/-- UnpauseContainers unpauses containers by ID, delegating to the CRI
backend when UseCRI is set; an empty list is a no-op. -/
def Docker.UnpauseContainers (r : Docker) (h : Host) (ids : List String) : Tr Unit :=
  if r.UseCRI then unpauseCRIContainers h "" ids
  else if ids.isEmpty then ([], .ok ())
  else do
    let _ ← runCmdTr h ⟨"docker", ["unpause"] ++ ids⟩ "docker"
    pure ()

/-- ContainerLogCmd returns the command to retrieve the log for a
container by ID, delegating to the CRI backend when UseCRI is set. -/
def Docker.ContainerLogCmd (r : Docker) (h : Host) (id : String) (l : Int) (follow : Bool) :
    List Eff × String :=
  if r.UseCRI then criContainerLogCmd h id l follow
  else
    ([], "docker logs "
      ++ (if 0 < l then "--tail " ++ toString l ++ " " else "")
      ++ (if follow then "--follow " else "")
      ++ id)

/-- The docker images query used by the preload membership check. -/
def dockerImagesCmd : Cmd :=
  ⟨"docker", ["images", "--format", "\x7b\x7b.Repository\x7d\x7d:\x7b\x7b.Tag\x7d\x7d"]⟩

/-- Pure core of the preload membership check: every expected image,
normalized, must occur among the normalized present images. -/
def imagesPreloadedPure (present expected : List String) : Bool :=
  expected.all (fun i => (present.map TrimDockerIO).contains ( TrimDockerIO i))

/-- dockerImagesPreloaded returns true if all images have been preloaded:
it queries the runtime for present repository tags, normalizes both sides
by stripping the default-registry prefix, and checks membership; a failed
query counts as not preloaded. -/
def dockerImagesPreloaded (h : Host) (images : List String) : List Eff × Bool :=
  match h.run dockerImagesCmd with
  | none => ([.run dockerImagesCmd], false)
  | some rr => ([.run dockerImagesCmd], imagesPreloadedPure (goSplitLines rr.stdout) images)

/-- The preload membership check lifted into the trace monad (it never
fails, it only answers). -/
def dockerImagesPreloadedTr (h : Host) (images : List String) : Tr Bool :=
  ((dockerImagesPreloaded h images).1, .ok (dockerImagesPreloaded h images).2)

/-- ImagesPreloaded returns true if all images have been preloaded. -/
def Docker.ImagesPreloaded (_r : Docker) (h : Host) (images : List String) : List Eff × Bool :=
  dockerImagesPreloaded h images

/-- Kubernetes-level configuration carried by the cluster config. -/
structure KubernetesConfig where
  KubernetesVersion : String
  ContainerRuntime : String
  ImageRepository : String
deriving DecidableEq

/-- Cluster configuration as consumed by Preload. -/
structure ClusterConfig where
  KubernetesConfig : KubernetesConfig
  Driver : String
deriving DecidableEq

/-- External collaborators of Preload whose code lives outside the
source embedded here: the preload-bundle existence check and tarball path (download
package), the expected image-set resolver (bootstrapper images package),
and the file-asset constructor (assets package). -/
structure PreloadDeps where
  preloadExists : String → String → String → Bool
  kubeadmImages : String → String → Except String (List String)
  tarballPath : String → String → String
  fileAssetOk : String → Bool

/-- The which-lz4 host feature probe: the command runs, and its failure is
reported as the distinguished missing-feature error. -/
def whichLz4Tr (h : Host) : Tr Unit :=
  ([.run ⟨"which", ["lz4"]⟩],
   match h.run ⟨"which", ["lz4"]⟩ with
   | some _ => .ok ()
   | none => .error (.isoFeature "lz4"))

/-- The staged preload tarball target path (path.Join of the target dir
"/" and target name "preloaded.tar.lz4"). -/
def preloadDest : String := "/preloaded.tar.lz4"

/-- The tarball extraction command issued by Preload. -/
def preloadTarCmd : Cmd :=
  ⟨"sudo", ["tar", "-I", "lz4", "-C", "/var", "-xf", preloadDest]⟩

/-- Preload preloads docker with k8s images: no-op when no bundle applies
or the images are already present; otherwise snapshot the reference store,
require the lz4 utility (distinguished missing-feature error), copy the
tarball over, extract it, remove it, repair the reference store, and
restart the runtime. -/
def Docker.Preload (r : Docker) (h : Host) (d : PreloadDeps) (cc : ClusterConfig) : Tr Unit :=
  if !(d.preloadExists cc.KubernetesConfig.KubernetesVersion cc.KubernetesConfig.ContainerRuntime cc.Driver) then
    ([], .ok ())
  else
    match d.kubeadmImages cc.KubernetesConfig.ImageRepository cc.KubernetesConfig.KubernetesVersion with
    | .error _ => ([], .error (.wrap "getting images"))
    | .ok images => do
      let pre ← dockerImagesPreloadedTr h images
      if pre then ([], .ok ())
      else do
        refStoreSaveTr
        whichLz4Tr h
        if !(d.fileAssetOk (d.tarballPath cc.KubernetesConfig.KubernetesVersion cc.KubernetesConfig.ContainerRuntime)) then
          (([], .error (.wrap "getting file asset")) : Tr Unit)
        else do
          copyFileTr h preloadDest "copying file"
          let _ ← runCmdTr h preloadTarCmd "extracting tarball"
          removeTr h preloadDest
          refStoreSaveTr
          refStoreUpdateTr
          r.Restart h

/-- The override file path for the cri-docker service drop-in. -/
def CRIDockerServiceConfFile : String :=
  "/etc/systemd/system/cri-docker.service.d/10-cni.conf"

/-- The rendering of the cri-docker service drop-in template on the given
network plugin and extra arguments (text/template execution of the fixed
template, which on these inputs is plain substitution). -/
def criDockerServiceConfRender (networkPlugin extraArguments : String) : Except String String :=
  .ok ("[Service]\nExecStart=\nExecStart=/usr/bin/cri-dockerd --container-runtime-endpoint fd:// --network-plugin="
       ++ networkPlugin ++ extraArguments)

/-- The extra CNI arguments computed for the given network plugin. -/
def cniExtraArguments (networkPlugin : String) : String :=
  if networkPlugin = "cni" then
    " --cni-bin-dir=" ++ CNIBinDir
    ++ " --cni-cache-dir=" ++ CNICacheDir
    ++ " --cni-conf-dir=" ++ cniConfDir
    ++ " --hairpin-mode=promiscuous-bridge"
  else ""

/-- The network plugin configurator with the template execution step
abstracted (the Go code checks the Execute error, so the rendering is a
fallible input of the control flow): empty plugin is a no-op; a rendering
failure returns before any command or write; otherwise create the drop-in
directory, write the rendered override file, and restart cri-docker. -/
def dockerConfigureNetworkPluginWith (render : String → String → Except String String)
    (h : Host) (networkPlugin : String) : Tr Unit :=
  if networkPlugin = "" then ([], .ok ())
  else
    let args := cniExtraArguments networkPlugin
    match render networkPlugin args with
    | .error _ => ([], .error (.wrap "failed to execute template"))
    | .ok content => do
      let _ ← runCmdTr h ⟨"sudo", ["mkdir", "-p", "/etc/systemd/system/cri-docker.service.d"]⟩ "failed to create directory"
      copyMemTr h CRIDockerServiceConfFile content "failed to copy template"
      initCall h .restart "cri-docker"

/-- dockerConfigureNetworkPlugin as in the source: the configurator with
the actual template rendering. -/
def dockerConfigureNetworkPlugin (h : Host) (networkPlugin : String) : Tr Unit :=
  dockerConfigureNetworkPluginWith criDockerServiceConfRender h networkPlugin

@[simp]
theorem data_mk (a : List Char) : (String.mk a).data = a := rfl

theorem str_append_mk (s t : String) : s ++ t = String.mk (s.data ++ t.data) := rfl

theorem splitSlash_of_not_mem : ∀ {a : List Char}, '/' ∉ a → splitSlash a = none := by
  intro a
  induction a with
  | nil => intro _; rfl
  | cons c cs ih =>
    intro hmem
    have hc : ¬ c = '/' := fun hc => hmem (hc ▸ List.mem_cons_self c cs)
    have hcs : '/' ∉ cs := fun hm => hmem (List.mem_cons_of_mem c hm)
    simp [splitSlash, hc, ih hcs]

theorem splitSlash_append : ∀ (a b : List Char), '/' ∉ a →
    splitSlash (a ++ '/' :: b) = some (a, b) := by
  intro a
  induction a with
  | nil => intro b _; simp [splitSlash]
  | cons c cs ih =>
    intro b hmem
    have hc : ¬ c = '/' := fun hc => hmem (hc ▸ List.mem_cons_self c cs)
    have hcs : '/' ∉ cs := fun hm => hmem (List.mem_cons_of_mem c hm)
    simp [splitSlash, hc, ih b hcs]

theorem splitSlash_eq_some : ∀ {l a b : List Char}, splitSlash l = some (a, b) →
    l = a ++ '/' :: b ∧ '/' ∉ a := by
  intro l
  induction l with
  | nil => intro a b hsp; simp [splitSlash] at hsp
  | cons c cs ih =>
    intro a b hsp
    by_cases hc : c = '/'
    · subst hc
      simp [splitSlash] at hsp
      obtain ⟨ha, hb⟩ := hsp
      subst ha; subst hb
      simp
    · simp only [splitSlash, if_neg hc] at hsp
      cases hrec : splitSlash cs with
      | none => rw [hrec] at hsp; simp at hsp
      | some p =>
        obtain ⟨a2, b2⟩ := p
        rw [hrec] at hsp
        simp at hsp
        obtain ⟨ha, hb⟩ := hsp
        obtain ⟨hl, hnm⟩ := ih hrec
        subst ha; subst hb; subst hl
        constructor
        · simp
        · intro hm
          rcases List.mem_cons.mp hm with h1 | h2
          · exact hc h1.symm
          · exact hnm h2

theorem addDockerIO_of_dotted (a b : List Char) (ha : '/' ∉ a) (hdot : a.contains '.' = true) :
    addDockerIO (String.mk (a ++ '/' :: b)) = String.mk (a ++ '/' :: b) := by
  unfold addDockerIO goSplitN2
  simp only [data_mk, splitSlash_append a b ha]
  simp only [goContains, data_mk, hdot, if_true]
  simp [str_append_mk]

theorem str_eq_mk_of_data {s : String} {l : List Char} (h : s.data = l) : s = String.mk l := by
  cases s with
  | mk d => exact congrArg String.mk h

theorem addDockerIO_dockerIO_pre (t : List Char) :
    addDockerIO (String.mk ("docker.io".data ++ '/' :: t)) = String.mk ("docker.io".data ++ '/' :: t) :=
  addDockerIO_of_dotted "docker.io".data t (by decide) (by decide)

theorem addDockerIO_idem (name : String) : addDockerIO ( addDockerIO name) = addDockerIO name := by
  cases hsp : splitSlash name.data with
  | none =>
    have h1 : addDockerIO name = String.mk ("docker.io".data ++ '/' :: ("library".data ++ '/' :: name.data)) := by
      unfold addDockerIO addDockerIODefaultReg goSplitN2
      rw [hsp]
      simp [str_append_mk]
    rw [h1, addDockerIO_dockerIO_pre]
  | some p =>
    obtain ⟨a, b⟩ := p
    obtain ⟨hl, hnm⟩ := splitSlash_eq_some hsp
    by_cases hdot : a.contains '.' = true
    · have hname : addDockerIO name = name := by
        conv_lhs => rw [str_eq_mk_of_data hl]
        rw [addDockerIO_of_dotted a b hnm hdot]
        exact (str_eq_mk_of_data hl).symm
      rw [hname, hname]
    · have hdot2 : a.contains '.' = false := by
        cases hcc : a.contains '.' with
        | true => exact absurd hcc hdot
        | false => rfl
      have h1 : addDockerIO name = String.mk ("docker.io".data ++ '/' :: (a ++ '/' :: b)) := by
        unfold addDockerIO addDockerIODefaultReg goSplitN2
        rw [hsp]
        simp only [goContains, data_mk, hdot2]
        simp [str_append_mk]
      rw [h1, addDockerIO_dockerIO_pre]

/-- Key lookup in a kubelet option list. -/
def lookupKV : List (String × String) → String → Option String
  | [], _ => none
  | (k, v) :: rest, key => if k = key then some v else lookupKV rest key

/-- A host on which every external call succeeds and every command
returns empty output. -/
def okHost : Host where
  run := fun _ => some ⟨""⟩
  copyFileOk := fun _ => true
  copyMemOk := fun _ => true
  removeOk := fun _ => true
  svcOk := fun _ _ => true
  path := fun _ => true
  criOk := fun _ _ => true
  criContainers := fun _ => []
  jsonImage := fun _ => none
  fromHumanSize := fun _ => none

/-- A CRI-mode adapter instance (Kubernetes 1.24, cri-docker service). -/
def dockerCRI : Docker :=
  ⟨"", "", ⟨1, 24, 0⟩, true, "cri-docker.service"⟩

/-- A native-mode adapter instance (Kubernetes 1.23, no CRI service). -/
def dockerNative : Docker :=
  ⟨"", "", ⟨1, 23, 9⟩, false, ""⟩

/-- C5: KubeletOptions returns exactly the four CRI-mode keys
container-runtime=remote, container-runtime-endpoint and
image-service-endpoint (both equal to SocketPath), and
runtime-request-timeout=15m when UseCRI is true, and exactly the single
key container-runtime=docker when UseCRI is false, with no other keys in
either case. -/
theorem kubeletOptions_exact (r : Docker) :
    (r.UseCRI = true →
      r.KubeletOptions = [("container-runtime", "remote"),
        ("container-runtime-endpoint", r.SocketPath),
        ("image-service-endpoint", r.SocketPath),
        ("runtime-request-timeout", "15m")]) ∧
    (r.UseCRI = false → r.KubeletOptions = [("container-runtime", "docker")]) := by
  constructor <;> intro hc <;> simp [Docker.KubeletOptions, hc]

theorem kubeletOptions_exact_witness :
    dockerCRI.UseCRI = true ∧
    dockerCRI.KubeletOptions = [("container-runtime", "remote"),
      ("container-runtime-endpoint", dockerCRI.SocketPath),
      ("image-service-endpoint", dockerCRI.SocketPath),
      ("runtime-request-timeout", "15m")] :=
  ⟨rfl, (kubeletOptions_exact dockerCRI).1 rfl⟩

/-- C10: with an empty Socket field, SocketPath returns the internal
dockershim socket regardless of UseCRI or KubernetesVersion, and in CRI
mode KubeletOptions therefore reports that internal socket, which differs
from the external cri-dockerd socket, as both endpoint values. -/
theorem socketPath_empty_internal (r : Docker) (hs : r.Socket = "") :
    r.SocketPath = "/var/run/dockershim.sock" ∧
    InternalDockerCRISocket = "/var/run/dockershim.sock" ∧
    InternalDockerCRISocket ≠ ExternalDockerCRISocket ∧
    (r.UseCRI = true →
      lookupKV r.KubeletOptions "container-runtime-endpoint" = some "/var/run/dockershim.sock" ∧
      lookupKV r.KubeletOptions "image-service-endpoint" = some "/var/run/dockershim.sock") := by
  have hsp : r.SocketPath = "/var/run/dockershim.sock" := by
    simp [Docker.SocketPath, hs, InternalDockerCRISocket]
  refine ⟨hsp, rfl, by decide, ?_⟩
  intro hcri
  simp [Docker.KubeletOptions, hcri, hsp, lookupKV]

theorem socketPath_empty_internal_witness :
    dockerCRI.Socket = "" ∧
    dockerCRI.SocketPath = "/var/run/dockershim.sock" ∧
    lookupKV dockerCRI.KubeletOptions "container-runtime-endpoint" = some "/var/run/dockershim.sock" := by
  have h := socketPath_empty_internal dockerCRI rfl
  exact ⟨rfl, h.1, (h.2.2.2 rfl).1⟩

/-- C4: when the Kubernetes version is at least 1.24, Available fails
whenever cri-dockerd cannot be resolved, whatever the other binaries do
(the conclusion does not constrain dockerd or docker, so in particular it
holds when they resolve); below 1.24 Available succeeds exactly when the
docker binary resolves, and only that binary is looked up. -/
theorem available_cri_shim (r : Docker) (h : Host) :
    (SemVer.gte r.KubernetesVersion ⟨1, 24, 0⟩ = true → h.path "cri-dockerd" = false →
      (r.Available h).2 = .error (.lookFail "cri-dockerd") ∧
      (r.Available h).1 = [.look "cri-dockerd"]) ∧
    (SemVer.gte r.KubernetesVersion ⟨1, 24, 0⟩ = false →
      ((r.Available h).2 = .ok () ↔ h.path "docker" = true) ∧
      (r.Available h).1 = [.look "docker"]) := by
  constructor
  · intro hg hp
    simp [Docker.Available, hg, lookPathTr, hp, Tr.bind]
  · intro hg
    cases hd : h.path "docker" <;>
      simp [Docker.Available, hg, lookPathTr, hd, Tr.bind]

theorem available_cri_shim_witness :
    SemVer.gte dockerCRI.KubernetesVersion ⟨1, 24, 0⟩ = true ∧
    ({ okHost with path := fun b => b != "cri-dockerd" } : Host).path "dockerd" = true ∧
    ({ okHost with path := fun b => b != "cri-dockerd" } : Host).path "docker" = true ∧
    (dockerCRI.Available { okHost with path := fun b => b != "cri-dockerd" }).2 =
      .error (.lookFail "cri-dockerd") := by
  refine ⟨by decide, by decide, by decide, ?_⟩
  exact ((available_cri_shim dockerCRI { okHost with path := fun b => b != "cri-dockerd" }).1
    (by decide) (by decide)).1

theorem runCmd_unit_eval (h : Host) (c : Cmd) (m : String) :
    (Tr.bind (runCmdTr h c m) (fun _ => (([], Except.ok ()) : Tr Unit))) =
      ([Eff.run c], match h.run c with
        | some _ => Except.ok ()
        | none => Except.error (Err.cmdFail c m)) := by
  unfold runCmdTr Tr.bind
  cases h.run c <;> rfl

/-- C6: each bulk container operation is a no-op issuing no command on an
empty ID list, and issues exactly one command covering the full ID list
on a non-empty list, in both the native and the CRI mode. -/
theorem bulk_containers_single_cmd (r : Docker) (h : Host) (ids : List String) :
    (ids = [] →
      r.KillContainers h ids = ([], .ok ()) ∧
      r.StopContainers h ids = ([], .ok ()) ∧
      r.PauseContainers h ids = ([], .ok ()) ∧
      r.UnpauseContainers h ids = ([], .ok ())) ∧
    (ids ≠ [] →
      (r.KillContainers h ids).1 =
        [if r.UseCRI = true then Eff.cri "killContainers" ids
         else Eff.run ⟨"docker", ["rm", "-f"] ++ ids⟩] ∧
      (r.StopContainers h ids).1 =
        [if r.UseCRI = true then Eff.cri "stopContainers" ids
         else Eff.run ⟨"docker", ["stop"] ++ ids⟩] ∧
      (r.PauseContainers h ids).1 =
        [if r.UseCRI = true then Eff.cri "pauseContainers" ("" :: ids)
         else Eff.run ⟨"docker", ["pause"] ++ ids⟩] ∧
      (r.UnpauseContainers h ids).1 =
        [if r.UseCRI = true then Eff.cri "unpauseContainers" ("" :: ids)
         else Eff.run ⟨"docker", ["unpause"] ++ ids⟩]) := by
  constructor
  · intro he
    subst he
    cases hc : r.UseCRI <;>
      simp [Docker.KillContainers, Docker.StopContainers, Docker.PauseContainers,
        Docker.UnpauseContainers, killCRIContainers, stopCRIContainers,
        pauseCRIContainers, unpauseCRIContainers, hc]
  · intro hne
    have hids : ids.isEmpty = false := by
      cases ids with
      | nil => exact absurd rfl hne
      | cons x xs => rfl
    cases hc : r.UseCRI <;>
      simp [Docker.KillContainers, Docker.StopContainers, Docker.PauseContainers,
        Docker.UnpauseContainers, killCRIContainers, stopCRIContainers,
        pauseCRIContainers, unpauseCRIContainers, hc, hids, runCmd_unit_eval]

theorem bulk_containers_single_cmd_witness :
    (dockerNative.KillContainers okHost [] = ([], .ok ())) ∧
    (dockerNative.KillContainers okHost ["c1", "c2"]).1 =
      [Eff.run ⟨"docker", ["rm", "-f", "c1", "c2"]⟩] := by
  constructor
  · exact ((bulk_containers_single_cmd dockerNative okHost []).1 rfl).1
  · have h := ((bulk_containers_single_cmd dockerNative okHost ["c1", "c2"]).2 (by decide)).1
    simpa using h

/-- An effect that invokes the native docker CLI: a runner command whose
program is docker itself or the bash shell running a docker pipeline. -/
def dockerCLIEffB (e : Eff) : Bool :=
  match e with
  | .run c => c.prog = "docker" || c.prog = "/bin/bash"
  | _ => false

/-- An effect that merely resolves a binary on PATH. -/
def lookEffB (e : Eff) : Bool :=
  match e with
  | .look _ => true
  | _ => false

theorem all_trace_bind {α β : Type} (x : Tr α) (f : α → Tr β) (P : Eff → Bool)
    (hx : x.1.all P = true) (hf : ∀ a, (f a).1.all P = true) :
    (Tr.bind x f).1.all P = true := by
  unfold Tr.bind
  cases hx2 : x.2 with
  | error e => simpa using hx
  | ok a => simp [List.all_append, hx, hf a]

theorem all_trace_runCmd (h : Host) (c : Cmd) (m : String) (P : Eff → Bool)
    (hP : P (.run c) = true) : (runCmdTr h c m).1.all P = true := by
  simp [runCmdTr, hP]

theorem all_trace_look (h : Host) (b : String) :
    (lookPathTr h b).1.all lookEffB = true := by
  simp [lookPathTr, lookEffB]

/-- C1 is stated over the original docker instance and the instance with
the UseCRI flag replaced, to express that the native-only operations do
not consult the flag. -/
theorem docker_cri_dispatch (r : Docker) (h : Host) (b : Bool)
    (name src file tag idc p : String) (push follow : Bool)
    (env opts ids : List String) (o : ListContainersOptions) (l : Int) :
    (r.UseCRI = true →
      r.PullImage h name = pullCRIImage h name ∧
      r.RemoveImage h name = removeCRIImage h name ∧
      r.ListContainers h o = listCRIContainers h "" o ∧
      r.KillContainers h ids = killCRIContainers h ids ∧
      r.StopContainers h ids = stopCRIContainers h ids ∧
      r.PauseContainers h ids = pauseCRIContainers h "" ids ∧
      r.UnpauseContainers h ids = unpauseCRIContainers h "" ids ∧
      r.ContainerLogCmd h idc l follow = criContainerLogCmd h idc l follow) ∧
    (({ r with UseCRI := b } : Docker).Version h = r.Version h ∧
     ({ r with UseCRI := b } : Docker).Available h = r.Available h ∧
     ({ r with UseCRI := b } : Docker).CGroupDriver h = r.CGroupDriver h ∧
     ({ r with UseCRI := b } : Docker).BuildImage h src file tag push env opts
        = r.BuildImage h src file tag push env opts ∧
     ({ r with UseCRI := b } : Docker).PushImage h name = r.PushImage h name ∧
     ({ r with UseCRI := b } : Docker).SaveImage h name p = r.SaveImage h name p ∧
     ({ r with UseCRI := b } : Docker).LoadImage h p = r.LoadImage h p ∧
     ({ r with UseCRI := b } : Docker).TagImage h src tag = r.TagImage h src tag ∧
     ({ r with UseCRI := b } : Docker).ListImages h = r.ListImages h) ∧
    ((r.Version h).1.all dockerCLIEffB = true ∧
     (r.CGroupDriver h).1.all dockerCLIEffB = true ∧
     (r.BuildImage h src file tag push env opts).1.all dockerCLIEffB = true ∧
     (r.PushImage h name).1.all dockerCLIEffB = true ∧
     (r.SaveImage h name p).1.all dockerCLIEffB = true ∧
     (r.LoadImage h p).1.all dockerCLIEffB = true ∧
     (r.TagImage h src tag).1.all dockerCLIEffB = true ∧
     (r.ListImages h).1.all dockerCLIEffB = true ∧
     (r.Available h).1.all lookEffB = true) := by
  refine ⟨?_, ?_, ?_⟩
  · intro hc
    refine ⟨?_, ?_, ?_, ?_, ?_, ?_, ?_, ?_⟩ <;>
      simp [Docker.PullImage, Docker.RemoveImage, Docker.ListContainers,
        Docker.KillContainers, Docker.StopContainers, Docker.PauseContainers,
        Docker.UnpauseContainers, Docker.ContainerLogCmd, hc]
  · exact ⟨rfl, rfl, rfl, rfl, rfl, rfl, rfl, rfl, rfl⟩
  · refine ⟨?_, ?_, ?_, ?_, ?_, ?_, ?_, ?_, ?_⟩
    · simp only [Docker.Version, tr_bind_eq_bind]
      exact all_trace_bind _ _ _
        (all_trace_runCmd h _ _ _ (by simp [dockerCLIEffB]))
        (fun rr => by simp)
    · simp only [Docker.CGroupDriver, tr_bind_eq_bind]
      exact all_trace_bind _ _ _
        (all_trace_runCmd h _ _ _ (by simp [dockerCLIEffB]))
        (fun rr => by simp)
    · simp only [Docker.BuildImage, tr_bind_eq_bind]
      refine all_trace_bind _ _ _
        (all_trace_runCmd h _ _ _ (by simp [dockerCLIEffB])) (fun a => ?_)
      cases hpt : tag != "" && push
      · simp [hpt]
      · simp only [hpt, if_true]
        exact all_trace_bind _ _ _
          (all_trace_runCmd h _ _ _ (by simp [dockerCLIEffB]))
          (fun a2 => by simp)
    · simp only [Docker.PushImage, tr_bind_eq_bind]
      exact all_trace_bind _ _ _
        (all_trace_runCmd h _ _ _ (by simp [dockerCLIEffB]))
        (fun rr => by simp)
    · simp only [Docker.SaveImage, tr_bind_eq_bind]
      exact all_trace_bind _ _ _
        (all_trace_runCmd h _ _ _ (by simp [dockerCLIEffB]))
        (fun rr => by simp)
    · simp only [Docker.LoadImage, tr_bind_eq_bind]
      exact all_trace_bind _ _ _
        (all_trace_runCmd h _ _ _ (by simp [dockerCLIEffB]))
        (fun rr => by simp)
    · simp only [Docker.TagImage, tr_bind_eq_bind]
      exact all_trace_bind _ _ _
        (all_trace_runCmd h _ _ _ (by simp [dockerCLIEffB]))
        (fun rr => by simp)
    · simp only [Docker.ListImages, tr_bind_eq_bind]
      exact all_trace_bind _ _ _
        (all_trace_runCmd h _ _ _ (by simp [dockerCLIEffB]))
        (fun rr => by simp)
    · simp only [Docker.Available, tr_bind_eq_bind]
      cases hg : SemVer.gte r.KubernetesVersion ⟨1, 24, 0⟩
      · simp only [hg, Bool.false_eq_true, if_false]
        exact all_trace_bind _ _ _ (by simp) (fun a => all_trace_look h "docker")
      · simp only [hg, if_true]
        exact all_trace_bind _ _ _ (all_trace_look h "cri-dockerd")
          (fun a => all_trace_bind _ _ _ (all_trace_look h "dockerd")
            (fun a2 => all_trace_look h "docker"))

theorem docker_cri_dispatch_witness :
    dockerCRI.UseCRI = true ∧
    dockerCRI.PullImage okHost "img" = pullCRIImage okHost "img" ∧
    (dockerCRI.Version okHost).1.all dockerCLIEffB = true := by
  have h := docker_cri_dispatch dockerCRI okHost false "img" "s" "f" "t" "i" "p"
    false false [] [] [] ⟨.all, "", []⟩ 0
  exact ⟨rfl, (h.1 rfl).1, h.2.2.1⟩

/-- C1 as frozen is refuted: with UseCRI set, the image listing operation
does not delegate to the CRI backend; it still issues the native docker
images command and no CRI backend effect. -/
theorem listImages_cri_counterexample :
    dockerCRI.UseCRI = true ∧
    (dockerCRI.ListImages okHost).1 =
      [Eff.run ⟨"docker", ["images", "--no-trunc", "--format", "\x7b\x7bjson .\x7d\x7d"]⟩] ∧
    (dockerCRI.ListImages okHost).1.all (fun e => !e.isCri) = true := by
  exact ⟨rfl, rfl, rfl⟩

/-- C2 (amended): addDockerIO is idempotent; a name that contains a slash
and whose first slash-separated segment contains a dot is returned
unchanged; any other name gets the docker.io prefix prepended, with the
implicit library segment inserted when the name has no user/organization
segment; and the three examples normalize as the spec states. -/
theorem addDockerIO_spec :
    (∀ name, addDockerIO ( addDockerIO name) = addDockerIO name) ∧
    (∀ (name : String) (a c : List Char), name.data = a ++ '/' :: c → '/' ∉ a →
      a.contains '.' = true → addDockerIO name = name) ∧
    (∀ (name : String) (a c : List Char), name.data = a ++ '/' :: c → '/' ∉ a →
      a.contains '.' = false → addDockerIO name = "docker.io" ++ "/" ++ name) ∧
    (∀ name : String, '/' ∉ name.data →
      addDockerIO name = "docker.io" ++ "/" ++ "library" ++ "/" ++ name) ∧
    addDockerIO "nginx" = "docker.io/library/nginx" ∧
    addDockerIO "myuser/app" = "docker.io/myuser/app" ∧
    addDockerIO "myregistry.io/app" = "myregistry.io/app" := by
  refine ⟨addDockerIO_idem, ?_, ?_, ?_, by decide, by decide, by decide⟩
  · intro name a c hl hnm hdot
    rw [str_eq_mk_of_data hl]
    exact addDockerIO_of_dotted a c hnm hdot
  · intro name a c hl hnm hdot
    have hsp : splitSlash name.data = some (a, c) := by
      rw [hl]; exact splitSlash_append a c hnm
    have h1 : addDockerIO name = String.mk ("docker.io".data ++ '/' :: (a ++ '/' :: c)) := by
      unfold addDockerIO addDockerIODefaultReg goSplitN2
      rw [hsp]
      simp only [goContains, data_mk, hdot]
      simp [str_append_mk]
    rw [h1, str_append_mk, str_append_mk]
    exact congrArg String.mk (by rw [hl]; simp)
  · intro name hnm
    unfold addDockerIO addDockerIODefaultReg goSplitN2
    rw [splitSlash_of_not_mem hnm]

theorem addDockerIO_spec_witness :
    ("myregistry.io/app").data = "myregistry.io".data ++ '/' :: "app".data ∧
    "myregistry.io".data.contains '.' = true ∧
    addDockerIO "myregistry.io/app" = "myregistry.io/app" := by
  refine ⟨by decide, by decide, ?_⟩
  exact addDockerIO_spec.2.1 "myregistry.io/app" "myregistry.io".data "app".data
    (by decide) (by decide) (by decide)

/-- C2 as frozen is refuted at the input my.image: its first (and only)
slash-separated segment contains a dot, yet the name is not returned
unchanged; the default registry and library segments are prepended. -/
theorem addDockerIO_dotted_counterexample :
    goSplitN2 "my.image" = ["my.image"] ∧
    goContains "my.image" '.' = true ∧
    addDockerIO "my.image" = "docker.io/library/my.image" ∧
    addDockerIO "my.image" ≠ "my.image" := by decide

/-- C7: Disable stops then disables the CRI shim service first (when
configured; either failure is fatal and nothing later runs), then
force-stops docker.socket (failure only logged, later steps still run),
then force-stops docker.service (failure fatal, later steps skipped),
then disables docker.socket (failure only logged), then masks
docker.service; each conclusion fixes the exact effect trace, so a fatal
step provably prevents all later steps. -/
theorem disable_ordering (r : Docker) (h : Host) :
    (r.CRIService ≠ "" → h.svcOk .stop r.CRIService = false →
      r.Disable h = ([.svc .stop r.CRIService],
        .error (.svcFail .stop r.CRIService))) ∧
    (r.CRIService ≠ "" → h.svcOk .stop r.CRIService = true →
      h.svcOk .disable r.CRIService = false →
      r.Disable h = ([.svc .stop r.CRIService, .svc .disable r.CRIService],
        .error (.svcFail .disable r.CRIService))) ∧
    (r.CRIService ≠ "" → h.svcOk .stop r.CRIService = true →
      h.svcOk .disable r.CRIService = true →
      h.svcOk .forceStop "docker.service" = false →
      r.Disable h = ([.svc .stop r.CRIService, .svc .disable r.CRIService,
        .svc .forceStop "docker.socket", .svc .forceStop "docker.service"],
        .error (.svcFail .forceStop "docker.service"))) ∧
    (r.CRIService ≠ "" → h.svcOk .stop r.CRIService = true →
      h.svcOk .disable r.CRIService = true →
      h.svcOk .forceStop "docker.service" = true →
      r.Disable h = ([.svc .stop r.CRIService, .svc .disable r.CRIService,
        .svc .forceStop "docker.socket", .svc .forceStop "docker.service",
        .svc .disable "docker.socket", .svc .mask "docker.service"],
        if h.svcOk .mask "docker.service" then .ok ()
        else .error (.svcFail .mask "docker.service"))) ∧
    (r.CRIService = "" → h.svcOk .forceStop "docker.service" = true →
      r.Disable h = ([.svc .forceStop "docker.socket", .svc .forceStop "docker.service",
        .svc .disable "docker.socket", .svc .mask "docker.service"],
        if h.svcOk .mask "docker.service" then .ok ()
        else .error (.svcFail .mask "docker.service"))) := by
  refine ⟨?_, ?_, ?_, ?_, ?_⟩
  · intro hcs hstop
    simp [Docker.Disable, initCall, initCallLogged, hcs, hstop, Tr.bind]
  · intro hcs hstop hdis
    simp [Docker.Disable, initCall, initCallLogged, hcs, hstop, hdis, Tr.bind]
  · intro hcs hstop hdis hfs
    simp [Docker.Disable, initCall, initCallLogged, hcs, hstop, hdis, hfs, Tr.bind]
  · intro hcs hstop hdis hfs
    cases hm : h.svcOk .mask "docker.service" <;>
      simp [Docker.Disable, initCall, initCallLogged, hcs, hstop, hdis, hfs, hm, Tr.bind]
  · intro hcs hfs
    cases hm : h.svcOk .mask "docker.service" <;>
      simp [Docker.Disable, initCall, initCallLogged, hcs, hfs, hm, Tr.bind]

theorem disable_ordering_witness :
    dockerCRI.CRIService ≠ "" ∧
    dockerCRI.Disable okHost = ([.svc .stop "cri-docker.service",
      .svc .disable "cri-docker.service", .svc .forceStop "docker.socket",
      .svc .forceStop "docker.service", .svc .disable "docker.socket",
      .svc .mask "docker.service"], .ok ()) := by
  refine ⟨by decide, ?_⟩
  have h := (disable_ordering dockerCRI okHost).2.2.2.1 (by decide) rfl rfl rfl
  simpa using h

/-- Whether sub occurs as a contiguous infix of s (character lists). -/
def infixChars : List Char → List Char → Bool
  | sub, [] => sub.isEmpty
  | sub, c :: cs => isPrefixChars sub (c :: cs) || infixChars sub cs

/-- Whether sub occurs as a substring of s. -/
def containsSubstrB (s sub : String) : Bool :=
  infixChars sub.data s.data

/-- The directory-creation command issued by the network plugin
configurator. -/
def cniMkdirCmd : Cmd :=
  ⟨"sudo", ["mkdir", "-p", "/etc/systemd/system/cri-docker.service.d"]⟩

/-- The override file content rendered for the cni plugin. -/
def cniRenderedContent : String :=
  match criDockerServiceConfRender "cni" (cniExtraArguments "cni") with
  | .ok s => s
  | .error _ => ""

/-- C8: with plugin "" the configurator performs no write and no restart
and succeeds; with plugin "cni" (and the directory creation and file copy
succeeding) it writes exactly one override file, whose rendered content
contains the CNI bin-dir, cache-dir, conf-dir and promiscuous-bridge
hairpin-mode flags, and then issues exactly one restart of the cri-docker
service; and when template rendering fails the error is returned with an
empty effect trace, before any filesystem write. -/
theorem network_plugin_config (h : Host) (rr : CmdResult)
    (render : String → String → Except String String) (msg : String) :
    (dockerConfigureNetworkPlugin h "" = ([], .ok ())) ∧
    (h.run cniMkdirCmd = some rr → h.copyMemOk CRIDockerServiceConfFile = true →
      dockerConfigureNetworkPlugin h "cni" =
        ([Eff.run cniMkdirCmd,
          Eff.copyMem CRIDockerServiceConfFile cniRenderedContent,
          Eff.svc .restart "cri-docker"],
         if h.svcOk .restart "cri-docker" then .ok ()
         else .error (.svcFail .restart "cri-docker"))) ∧
    containsSubstrB cniRenderedContent " --cni-bin-dir=/opt/cni/bin" = true ∧
    containsSubstrB cniRenderedContent " --cni-cache-dir=/var/lib/cni/cache" = true ∧
    containsSubstrB cniRenderedContent " --cni-conf-dir=/etc/cni/net.d" = true ∧
    containsSubstrB cniRenderedContent " --hairpin-mode=promiscuous-bridge" = true ∧
    (render "cni" (cniExtraArguments "cni") = .error msg →
      dockerConfigureNetworkPluginWith render h "cni" =
        ([], .error (.wrap "failed to execute template"))) := by
  refine ⟨rfl, ?_, by decide, by decide, by decide, by decide, ?_⟩
  · intro hrun hcp
    simp only [cniMkdirCmd] at hrun
    cases hres : h.svcOk .restart "cri-docker" <;>
      simp [dockerConfigureNetworkPlugin, dockerConfigureNetworkPluginWith,
        criDockerServiceConfRender, cniRenderedContent, cniMkdirCmd,
        runCmdTr, copyMemTr, initCall, hrun, hcp, hres, Tr.bind]
  · intro hr
    simp [dockerConfigureNetworkPluginWith, hr]

theorem network_plugin_config_witness :
    okHost.run cniMkdirCmd = some ⟨""⟩ ∧
    okHost.copyMemOk CRIDockerServiceConfFile = true ∧
    dockerConfigureNetworkPlugin okHost "cni" =
      ([Eff.run cniMkdirCmd,
        Eff.copyMem CRIDockerServiceConfFile cniRenderedContent,
        Eff.svc .restart "cri-docker"], .ok ()) := by
  refine ⟨rfl, rfl, ?_⟩
  have h := (network_plugin_config okHost ⟨""⟩ (fun a c => .error "boom") "boom").2.1 rfl rfl
  simpa using h

theorem dockerImagesPreloaded_fst (h : Host) (imgs : List String) :
    (dockerImagesPreloaded h imgs).1 = [Eff.run dockerImagesCmd] := by
  unfold dockerImagesPreloaded
  cases h.run dockerImagesCmd <;> rfl

/-- C9: when a preload bundle applies, the expected images resolve, the
membership check fails and the lz4 utility cannot be resolved, Preload
fails with the distinguished missing-feature error carrying "lz4", and
its effect trace contains no asset copy and no tarball extraction: the
transfer and the extraction are never attempted. -/
theorem preload_lz4_missing (r : Docker) (h : Host) (d : PreloadDeps)
    (cc : ClusterConfig) (imgs : List String)
    (hex : d.preloadExists cc.KubernetesConfig.KubernetesVersion
      cc.KubernetesConfig.ContainerRuntime cc.Driver = true)
    (him : d.kubeadmImages cc.KubernetesConfig.ImageRepository
      cc.KubernetesConfig.KubernetesVersion = .ok imgs)
    (hpre : (dockerImagesPreloaded h imgs).2 = false)
    (hlz4 : h.run ⟨"which", ["lz4"]⟩ = none) :
    r.Preload h d cc =
      ([Eff.run dockerImagesCmd, Eff.refStore "save", Eff.run ⟨"which", ["lz4"]⟩],
       .error (.isoFeature "lz4")) ∧
    ∀ e ∈ (r.Preload h d cc).1, e.isCopy = false ∧ e ≠ Eff.run preloadTarCmd := by
  have h1 : r.Preload h d cc =
      ([Eff.run dockerImagesCmd, Eff.refStore "save", Eff.run ⟨"which", ["lz4"]⟩],
       .error (.isoFeature "lz4")) := by
    unfold Docker.Preload
    simp [hex, him, dockerImagesPreloadedTr, dockerImagesPreloaded_fst, hpre,
      refStoreSaveTr, whichLz4Tr, hlz4, Tr.bind]
  refine ⟨h1, ?_⟩
  rw [h1]
  decide

/-- Command oracle reporting both expected images, with the
default-registry prefix, plus an extra image. -/
def runPresentAB (c : Cmd) : Option CmdResult :=
  if c = dockerImagesCmd then some ⟨"docker.io/library/A\ndocker.io/library/B\nC"⟩
  else some ⟨""⟩

/-- A host whose docker images listing reports both expected images, with
the default-registry prefix, plus an extra image. -/
def hostPresentAB : Host :=
  { okHost with run := runPresentAB }

/-- Command oracle reporting only the first expected image. -/
def runPresentA (c : Cmd) : Option CmdResult :=
  if c = dockerImagesCmd then some ⟨"A"⟩ else some ⟨""⟩

/-- A host whose docker images listing reports only the first expected
image. -/
def hostPresentA : Host :=
  { okHost with run := runPresentA }

/-- Preload collaborators for which a bundle applies, the expected images
are A and B, and the file asset resolves. -/
def depsOK : PreloadDeps :=
  ⟨fun _ _ _ => true, fun _ _ => .ok ["A", "B"],
   fun _ _ => "preloaded-images-k8s.tar.lz4", fun _ => true⟩

/-- A cluster configuration for the preload examples. -/
def ccExample : ClusterConfig := ⟨⟨"v1.24.0", "docker", ""⟩, "docker"⟩

/-- C3: the preload membership check succeeds exactly when every expected
image, with both sides normalized by stripping the default-registry
prefix, occurs among the images the runtime reports (a strict superset is
allowed); with expected A and B and present docker.io/library/A,
docker.io/library/B and C, Preload skips extraction and succeeds, while
with present A only, the membership check fails and the extraction
command is reached. -/
theorem preload_membership (h : Host) (imgs : List String) (rr : CmdResult)
    (hrun : h.run dockerImagesCmd = some rr) :
    ((dockerImagesPreloaded h imgs).2 = true ↔
      ∀ i ∈ imgs, TrimDockerIO i ∈ (goSplitLines rr.stdout).map TrimDockerIO) ∧
    (dockerImagesPreloaded hostPresentAB ["A", "B"]).2 = true ∧
    dockerCRI.Preload hostPresentAB depsOK ccExample =
      ([Eff.run dockerImagesCmd], .ok ()) ∧
    (dockerImagesPreloaded hostPresentA ["A", "B"]).2 = false ∧
    Eff.run preloadTarCmd ∈ (dockerCRI.Preload hostPresentA depsOK ccExample).1 := by
  refine ⟨?_, by decide, by decide, by decide, by decide⟩
  unfold dockerImagesPreloaded imagesPreloadedPure
  rw [hrun]
  simp [List.all_eq_true, List.elem_iff]

theorem preload_membership_witness :
    hostPresentAB.run dockerImagesCmd =
      some ⟨"docker.io/library/A\ndocker.io/library/B\nC"⟩ ∧
    ((dockerImagesPreloaded hostPresentAB ["A", "B"]).2 = true ↔
      ∀ i ∈ ["A", "B"], TrimDockerIO i ∈
        (goSplitLines "docker.io/library/A\ndocker.io/library/B\nC").map TrimDockerIO) := by
  refine ⟨by decide, ?_⟩
  exact (preload_membership hostPresentAB ["A", "B"]
    ⟨"docker.io/library/A\ndocker.io/library/B\nC"⟩ (by decide)).1

theorem preload_lz4_missing_witness :
    (dockerImagesPreloaded { hostPresentA with
        run := fun c => if c.prog = "which" then none else hostPresentA.run c } ["A", "B"]).2 = false ∧
    dockerCRI.Preload { hostPresentA with
        run := fun c => if c.prog = "which" then none else hostPresentA.run c } depsOK ccExample =
      ([Eff.run dockerImagesCmd, Eff.refStore "save", Eff.run ⟨"which", ["lz4"]⟩],
       .error (.isoFeature "lz4")) := by
  refine ⟨by decide, ?_⟩
  exact (preload_lz4_missing dockerCRI _ depsOK ccExample ["A", "B"]
    (by decide) (by decide) (by decide) (by decide)).1
